import Mathlib

/-!
Verification of the AquaINFRA/MITgcm pygeoapi processes.

Shallow embedding of `src/pygeoapi_processes/gendata_adapted.py` (the
forcing-field generator `gendata`) and of the pure parts of
`src/pygeoapi_processes/mitgcm_baroclinic_gyre.py`
(`MitgcmBaroclinicGyreProcessor.execute`): the config-file line patch, the
exit-code check after the Fortran subprocess, and the NetCDF result-file
classification loop.

Rational numbers stand for Python floats: every value the generator
computes outside the cosine is obtained from the inputs by field operations,
which ℚ models exactly (and the concrete values we evaluate, such as 30.25 or
14.5, are exactly representable in float32).  Only the wind-stress grid needs
`Real.cos`, so only it is a noncomputable definition; everything else is
executable.
Python strings are modelled as `List Char`; Python `str.strip`,
`str.startswith`, `str.endswith` are modelled by executable functions below.
-/

set_option autoImplicit false

namespace MitgcmGyre

/-- Parameters of one `gendata` call, in the order of the signature at
gendata_adapted.py line 22 (`out_path` and `LOGGER` only affect I/O and are
omitted). -/
structure GenParams where
  Ho : ℚ
  nx : ℕ
  ny : ℕ
  xo : ℚ
  yo : ℚ
  dx : ℚ
  dy : ℚ
  tauMax : ℚ
  Tmin : ℚ
  Tmax : ℚ

/-- Default argument values of the `gendata` signature (gendata_adapted.py
line 22). -/
def defaultParams : GenParams :=
  { Ho := 1800, nx := 62, ny := 62, xo := 0, yo := 15, dx := 1, dy := 1,
    tauMax := 0.1, Tmin := 0, Tmax := 30 }

/-- `xeast = xo + (nx-2)*dx` (gendata_adapted.py line 30). -/
def xeast (p : GenParams) : ℚ := p.xo + ((p.nx : ℚ) - 2) * p.dx

/-- `ynorth = yo + (ny-2)*dy` (gendata_adapted.py line 31). -/
def ynorth (p : GenParams) : ℚ := p.yo + ((p.ny : ℚ) - 2) * p.dy

/-- `np.linspace(a, b, n)`: the i-th of n evenly spaced samples from a to b,
`a + i*(b-a)/(n-1)`.  (For n = 1 numpy returns `[a]`, which this formula also
yields since division by zero is zero in Lean.) -/
def linspace (a b : ℚ) (n : ℕ) (i : ℕ) : ℚ := a + (i : ℚ) * (b - a) / ((n : ℚ) - 1)

/-- `h = -Ho * np.ones((ny, nx))` (gendata_adapted.py line 34). -/
def hFill (p : GenParams) : Fin p.ny → Fin p.nx → ℚ := fun _ _ => -p.Ho

/-- `h[:, [0,-1]] = 0` — zero the first and last column (gendata_adapted.py
line 37; numpy index -1 is the last index nx-1). -/
def hWallsEW (p : GenParams) (i : Fin p.ny) (j : Fin p.nx) : ℚ :=
  if j.val = 0 ∨ j.val = p.nx - 1 then 0 else hFill p i j

/-- `h[[0,-1], :] = 0` — zero the first and last row (gendata_adapted.py
line 38); the result is the bathymetry grid written to bathy.bin. -/
def bathy (p : GenParams) (i : Fin p.ny) (j : Fin p.nx) : ℚ :=
  if i.val = 0 ∨ i.val = p.ny - 1 then 0 else hWallsEW p i j

/-- `x = np.linspace(xo-dx, xeast, nx)` (gendata_adapted.py line 62). -/
def xgrid (p : GenParams) (j : Fin p.nx) : ℚ := linspace (p.xo - p.dx) (xeast p) p.nx j

/-- `y = np.linspace(yo-dy, ynorth, ny) + dy/2` (gendata_adapted.py
line 63). -/
def ygrid (p : GenParams) (i : Fin p.ny) : ℚ := linspace (p.yo - p.dy) (ynorth p) p.ny i + p.dy / 2

/-- First output of `Y, X = np.meshgrid(y, x, indexing='ij')`
(gendata_adapted.py line 64): shape (ny, nx), `Y[i, j] = y[i]` — y varies
along rows. -/
def Ygrid (p : GenParams) (i : Fin p.ny) (_j : Fin p.nx) : ℚ := ygrid p i

/-- Second output of the meshgrid: `X[i, j] = x[j]`. -/
def Xgrid (p : GenParams) (_i : Fin p.ny) (j : Fin p.nx) : ℚ := xgrid p j

/-- The scalar wind-stress profile applied pointwise at gendata_adapted.py
line 65: `-tauMax * cos(2*pi*((y-yo)/(ny-2)/dy))`. -/
noncomputable def tauFun (p : GenParams) (y : ℚ) : ℝ :=
  -(p.tauMax : ℝ) * Real.cos (2 * Real.pi * (((y - p.yo) / ((p.ny : ℚ) - 2) / p.dy : ℚ) : ℝ))

/-- `tau = -tauMax * cos(2*pi*((Y-yo)/(ny-2)/dy))` (gendata_adapted.py
line 65), the grid written to windx_cosy.bin. -/
noncomputable def tau (p : GenParams) (i : Fin p.ny) (j : Fin p.nx) : ℝ := tauFun p (Ygrid p i j)

/-- `Tmax = 30` — gendata reassigns the local variable just before computing
Trest (gendata_adapted.py line 76), discarding the caller's Tmax. -/
def TrestTmax : ℚ := 30

/-- `Tmin = 0` — likewise reassigned (gendata_adapted.py line 77), discarding
the caller's Tmin. -/
def TrestTmin : ℚ := 0

/-- The scalar restoring-temperature profile applied pointwise at
gendata_adapted.py line 78: `(Tmax-Tmin)/(ny-2)/dy * (ynorth-y) + Tmin`, with
the reassigned (hardcoded) Tmax = 30, Tmin = 0. -/
def TrestFun (p : GenParams) (y : ℚ) : ℚ :=
  (TrestTmax - TrestTmin) / ((p.ny : ℚ) - 2) / p.dy * (ynorth p - y) + TrestTmin

/-- `Trest = (Tmax-Tmin)/(ny-2)/dy * (ynorth-Y) + Tmin` (gendata_adapted.py
line 78), the grid written to SST_relax.bin. -/
def Trest (p : GenParams) (i : Fin p.ny) (j : Fin p.nx) : ℚ := TrestFun p (Ygrid p i j)

/-! Serialization model of `grid.astype('>f4').tofile(path)`: the ny*nx
elements are written in numpy C (row-major) order, each as one 4-byte
big-endian float32 word; the file has no header.  We model the file as the
row-major list of stored values, with 4 bytes per element. -/

/-- Row-major (C-order) flattening used by `tofile`: row index i (the y
index) is outer, column index j (the x index) is inner.  Polymorphic in the
stored value type (ℚ for bathy and Trest, ℝ for tau). -/
def rowMajor {α : Type} (ny nx : ℕ) (g : Fin ny → Fin nx → α) : List α :=
  ((List.finRange ny).map (fun i => (List.finRange nx).map (g i))).flatten

/-- The `'>f4'` dtype stores each element in 4 bytes. -/
def bytesPerElem : ℕ := 4

/-- Byte length of one generated file. -/
def fileSizeBytes {α : Type} (ny nx : ℕ) (g : Fin ny → Fin nx → α) : ℕ :=
  (rowMajor ny nx g).length * bytesPerElem

/-- Reading the file back as big-endian float32 with shape (ny, nx): element
(i, j) is the word at flat index i*nx + j. -/
def readBack {α : Type} (nx : ℕ) (flat : List α) (i j : ℕ) : Option α :=
  flat[i * nx + j]?

/-! Embedding of the pure parts of `MitgcmBaroclinicGyreProcessor.execute`
(mitgcm_baroclinic_gyre.py). Python strings are `List Char`. -/

/-- The characters removed by Python `str.strip()` with no argument. -/
def pyIsSpace (c : Char) : Bool :=
  c == ' ' || c == '\t' || c == '\n' || c == '\r' || c == '\x0b' || c == '\x0c'

/-- Python `s.strip()`: drop whitespace from both ends. -/
def pyStrip (s : List Char) : List Char :=
  ((s.dropWhile pyIsSpace).reverse.dropWhile pyIsSpace).reverse

/-- Python `s.startswith(t)`. -/
def pyStartswith (t s : List Char) : Bool := t.isPrefixOf s

/-- Python `s.endswith(t)`. -/
def pyEndswith (t s : List Char) : Bool := t.isSuffixOf s

/-- Decimal rendering of a parsed integer, as `'%s' % n` produces. -/
def intChars (n : Int) : List Char := (toString n).data

/-- The body of the config-rewrite loop (mitgcm_baroclinic_gyre.py lines
223-239): one input line is either replaced wholesale or written through
unchanged. -/
def patchLine (endTime deltaT viscAh : Int) (line : List Char) : List Char :=
  if pyStartswith "endTime".data (pyStrip line) then
    " endTime=".data ++ intChars endTime ++ ".,\n".data
  else if pyStartswith "deltaT".data (pyStrip line) then
    " deltaT=".data ++ intChars deltaT ++ ".,\n".data
  else if pyStartswith "viscAh".data (pyStrip line) then
    " viscAh=".data ++ intChars viscAh ++ ".,\n".data
  else line

/-- The whole config rewrite: every line of the old file is processed by
`patchLine` in order and written to the new file. -/
def patchFile (endTime deltaT viscAh : Int) (lines : List (List Char)) : List (List Char) :=
  lines.map (patchLine endTime deltaT viscAh)

/-- `result_path + '/' + filename` (mitgcm_baroclinic_gyre.py lines 312,
315). -/
def pathJoin (rp fn : List Char) : List Char := rp ++ "/".data ++ fn

/-- The result-file classification loop (mitgcm_baroclinic_gyre.py lines
300-316): build `(grid_files, state_files)` from the directory listing.  The
recursion processes the current filename and conses its path onto the
classification of the remaining files, preserving the loop's append order. -/
def classifyLoop (rp : List Char) : List (List Char) → List (List Char) × List (List Char)
  | [] => ([], [])
  | fn :: rest =>
    let p := classifyLoop rp rest
    if ¬ pyEndswith ".nc".data fn then p
    else if fn = "state.nc".data then p
    else if fn = "grid.nc".data then p
    else if pyStartswith "grid".data fn then (pathJoin rp fn :: p.1, p.2)
    else if pyStartswith "state".data fn then (p.1, pathJoin rp fn :: p.2)
    else p

/-- The tail of `execute` after the subprocess returns (mitgcm_baroclinic_gyre.py
lines 267-324): `if not exit_code == 0: raise ProcessorExecuteError(...)` —
the error message carries the exit code, so the error payload here is the
exit code — otherwise the result files are classified and handed to the two
`glue` calls; the `Except.ok` value is the pair of merge input lists. -/
def postRun (exit_code : Int) (rp : List Char) (files : List (List Char)) :
    Except Int (List (List Char) × List (List Char)) :=
  if ¬ exit_code = 0 then Except.error exit_code
  else Except.ok (classifyLoop rp files)

/-- The `gendata` call at mitgcm_baroclinic_gyre.py line 255:
`gendata_adapted.gendata(LOGGER=LOGGER, out_path=out_path, tauMax=tauMax,
Tmin=Tmin, Tmax=Tmax)` — only tauMax, Tmin, Tmax come from the request; every
grid parameter keeps its `gendata` default. -/
def executeGendataParams (tauMax Tmin Tmax : ℚ) : GenParams :=
  { Ho := 1800, nx := 62, ny := 62, xo := 0, yo := 15, dx := 1, dy := 1,
    tauMax := tauMax, Tmin := Tmin, Tmax := Tmax }

end MitgcmGyre

namespace MitgcmGyre

/-! Helper lemmas shared by several claims. -/

/-- The row-major flattening of a ny × nx grid has ny * nx elements. -/
theorem rowMajor_length {α : Type} (ny nx : ℕ) (g : Fin ny → Fin nx → α) :
    (rowMajor ny nx g).length = ny * nx := by
  unfold rowMajor
  rw [List.length_flatten, List.map_map]
  have h : (List.length ∘ fun i => List.map (g i) (List.finRange nx))
      = Function.const (Fin ny) nx := by
    funext i
    simp [Function.comp, List.length_finRange]
  rw [h, List.map_const, List.sum_replicate, List.length_finRange, smul_eq_mul]

/-- Indexing a flattening of uniform-width rows at flat index i*w + j reads
row i at offset j. -/
theorem flatten_getElem_uniform {α : Type} (w : ℕ) :
    ∀ (l : List (List α)) (i j : ℕ), (∀ r ∈ l, r.length = w) → j < w →
      l.flatten[i * w + j]? = l[i]?.bind (fun r => r[j]?)
  | [], i, j, _, _ => by simp
  | r :: t, 0, j, hw, hj => by
    have hr : r.length = w := hw r (List.mem_cons_self r t)
    rw [List.flatten_cons, List.getElem?_append_left (by omega)]
    simp
  | r :: t, i + 1, j, hw, hj => by
    have hr : r.length = w := hw r (List.mem_cons_self r t)
    rw [List.flatten_cons, List.getElem?_append_right (by nlinarith [Nat.succ_mul i w])]
    have harith : (i + 1) * w + j - r.length = i * w + j := by
      rw [hr]; ring_nf; omega
    rw [harith, flatten_getElem_uniform w t i j (fun s hs => hw s (List.mem_cons_of_mem r hs)) hj]
    simp

end MitgcmGyre

namespace MitgcmGyre

/-- C2: for every generation call with nx, ny ≥ 3, every cell of the first
row, last row, first column and last column of the bathymetry grid written to
bathy.bin is exactly 0, and every interior cell equals -Ho. -/
theorem c2_bathy_border_interior (p : GenParams) (_hx : 3 ≤ p.nx) (_hy : 3 ≤ p.ny)
    (i : Fin p.ny) (j : Fin p.nx) :
    ((i.val = 0 ∨ i.val = p.ny - 1 ∨ j.val = 0 ∨ j.val = p.nx - 1) → bathy p i j = 0) ∧
    ((0 < i.val ∧ i.val < p.ny - 1 ∧ 0 < j.val ∧ j.val < p.nx - 1) → bathy p i j = -p.Ho) := by
  constructor
  · intro h
    unfold bathy hWallsEW
    by_cases hi : i.val = 0 ∨ i.val = p.ny - 1
    · rw [if_pos hi]
    · rw [if_neg hi, if_pos (by tauto)]
  · intro h
    unfold bathy hWallsEW hFill
    rw [if_neg (by omega), if_neg (by omega)]

/-- Witness for C2 at the default parameters: a border cell is 0 and an
interior cell is -1800. -/
theorem c2_bathy_border_interior_witness :
    bathy defaultParams ⟨0, by decide⟩ ⟨5, by decide⟩ = 0 ∧
    bathy defaultParams ⟨1, by decide⟩ ⟨1, by decide⟩ = -defaultParams.Ho :=
  ⟨(c2_bathy_border_interior defaultParams (by decide) (by decide) _ _).1 (Or.inl rfl),
   (c2_bathy_border_interior defaultParams (by decide) (by decide) _ _).2 (by decide)⟩

/-- A generation call whose caller supplies Tmin = 10, Tmax = 40 (all other
parameters default), as the orchestrator does for an HTTP request with those
values. -/
def c1FailParams : GenParams := { defaultParams with Tmin := 10, Tmax := 40 }

/-- C1 (code bug): with caller-supplied Tmin = 10, Tmax = 40 the grid value
at row 1 is 29.75 — computed from the reassigned constants Tmax = 30,
Tmin = 0 at gendata_adapted.py lines 76-77 — while the claimed formula
`(Tmax-Tmin)/((ny-2)*dy) * (ynorth - y) + Tmin` with the caller's values
gives 39.75 at the same point, so the written grid does not use the caller's
temperatures. -/
theorem c1_trest_ignores_caller_temps :
    Trest c1FailParams ⟨1, by decide⟩ ⟨0, by decide⟩ = 119 / 4 ∧
    (c1FailParams.Tmax - c1FailParams.Tmin) / (((c1FailParams.ny : ℚ) - 2) * c1FailParams.dy)
        * (ynorth c1FailParams - Ygrid c1FailParams ⟨1, by decide⟩ ⟨0, by decide⟩)
        + c1FailParams.Tmin = 159 / 4 ∧
    (119 / 4 : ℚ) ≠ 159 / 4 := by
  refine ⟨?_, ?_, by norm_num⟩ <;>
    norm_num [Trest, TrestFun, TrestTmax, TrestTmin, Ygrid, ygrid, linspace, ynorth,
      c1FailParams, defaultParams]

/-- C5 counterexample: at the concrete scenario (defaults: Ho=1800, nx=ny=62,
xo=0, yo=15, dx=dy=1, Tmin=0, Tmax=30) the restoring temperature at row 0 is
exactly 30.25 and at row 61 exactly -0.25: each is 0.25 away from the claimed
Tmax = 30 resp. Tmin = 0, far beyond float32 tolerance (all values here are
exactly representable in float32, so the Python floats agree). -/
theorem c5_counterexample :
    Trest defaultParams ⟨0, by decide⟩ ⟨0, by decide⟩ = 121 / 4 ∧
    Trest defaultParams ⟨61, by decide⟩ ⟨0, by decide⟩ = -(1 / 4) ∧
    ¬ |(121 / 4 : ℚ) - defaultParams.Tmax| ≤ 1 / 1000 ∧
    ¬ |(-(1 / 4) : ℚ) - defaultParams.Tmin| ≤ 1 / 1000 := by
  refine ⟨?_, ?_, ?_, ?_⟩ <;>
    norm_num [Trest, TrestFun, TrestTmax, TrestTmin, Ygrid, ygrid, linspace, ynorth,
      defaultParams, abs_le]

/-- C5 amended: for ny ≥ 3 and dy ≠ 0 the restoring temperature at row 0
(the southernmost grid point y = yo - dy/2) equals 30 + 15/(ny-2), and at the
last row (y = ynorth + dy/2) equals -15/(ny-2), where 30 and 0 are the
hardcoded Tmax and Tmin; the profile attains 30 exactly at y = yo and 0
exactly at y = ynorth.  At the concrete scenario these row values are 30.25
and -0.25, not 30 and 0. -/
theorem c5_trest_edge_values (p : GenParams) (hy : 3 ≤ p.ny) (hdy : p.dy ≠ 0)
    (j : Fin p.nx) :
    Trest p ⟨0, by omega⟩ j = 30 + 15 / ((p.ny : ℚ) - 2) ∧
    Trest p ⟨p.ny - 1, by omega⟩ j = -(15 / ((p.ny : ℚ) - 2)) ∧
    TrestFun p p.yo = 30 ∧
    TrestFun p (ynorth p) = 0 := by
  have hy' : (3 : ℚ) ≤ (p.ny : ℚ) := by exact_mod_cast hy
  have h2 : (p.ny : ℚ) - 2 ≠ 0 := by linarith
  have h1 : (p.ny : ℚ) - 1 ≠ 0 := by linarith
  have hcast : ((p.ny - 1 : ℕ) : ℚ) = (p.ny : ℚ) - 1 :=
    Nat.cast_sub (by omega)
  refine ⟨?_, ?_, ?_, ?_⟩
  · unfold Trest TrestFun TrestTmax TrestTmin Ygrid ygrid linspace ynorth
    push_cast
    field_simp
    ring
  · unfold Trest TrestFun TrestTmax TrestTmin Ygrid ygrid linspace ynorth
    rw [hcast]
    field_simp
    ring
  · unfold TrestFun TrestTmax TrestTmin ynorth
    field_simp
  · unfold TrestFun TrestTmax TrestTmin ynorth
    field_simp

/-- Witness for C5 amended at the concrete scenario: row 0 of the grid is
30 + 15/60 = 30.25 and row 61 is -15/60 = -0.25. -/
theorem c5_trest_edge_values_witness :
    Trest defaultParams ⟨0, by decide⟩ ⟨0, by decide⟩
        = 30 + 15 / ((defaultParams.ny : ℚ) - 2) ∧
    Trest defaultParams ⟨defaultParams.ny - 1, by decide⟩ ⟨0, by decide⟩
        = -(15 / ((defaultParams.ny : ℚ) - 2)) ∧
    TrestFun defaultParams defaultParams.yo = 30 ∧
    TrestFun defaultParams (ynorth defaultParams) = 0 :=
  c5_trest_edge_values defaultParams (by decide) (by norm_num [defaultParams]) ⟨0, by decide⟩

end MitgcmGyre

namespace MitgcmGyre

/-- C3: the wind-stress grid is computed on the coordinate grid
y = linspace(yo-dy, ynorth, ny) + dy/2 (`ygrid`, varying along rows) as
tau(y) = -tauMax * cos(2*pi*(y-yo)/((ny-2)*dy)), and every row of the ny × nx
grid is constant along the x dimension. -/
theorem c3_tau_formula_rows_const (p : GenParams) (i : Fin p.ny) (j : Fin p.nx) :
    tau p i j
      = -(p.tauMax : ℝ)
        * Real.cos (2 * Real.pi * (((ygrid p i - p.yo) / (((p.ny : ℚ) - 2) * p.dy) : ℚ) : ℝ)) ∧
    ∀ j' : Fin p.nx, tau p i j' = tau p i j := by
  constructor
  · unfold tau tauFun Ygrid
    rw [div_div]
  · intro j'
    rfl

/-- C4 counterexample: at the default parameters (tauMax = 0.1, yo = 15,
ynorth = 75) the profile takes the value -0.1 both at y = yo and at its
reflection ynorth - (yo - yo) = ynorth, so tau(y) = -tau(ynorth - (y - yo))
fails at y = yo; moreover the value at the meridional midpoint is +0.1 =
+tauMax, not approximately 0. -/
theorem c4_counterexample :
    tauFun defaultParams defaultParams.yo = -(1 / 10) ∧
    tauFun defaultParams (ynorth defaultParams - (defaultParams.yo - defaultParams.yo))
      = -(1 / 10) ∧
    ¬ (tauFun defaultParams defaultParams.yo
        = -tauFun defaultParams (ynorth defaultParams - (defaultParams.yo - defaultParams.yo))) ∧
    tauFun defaultParams ((defaultParams.yo + ynorth defaultParams) / 2) = 1 / 10 ∧
    ¬ |tauFun defaultParams ((defaultParams.yo + ynorth defaultParams) / 2)| ≤ 1 / 100 := by
  have hy : ynorth defaultParams = 75 := by norm_num [ynorth, defaultParams]
  have h1 : tauFun defaultParams defaultParams.yo = -(1 / 10) := by
    unfold tauFun
    have ha : ((defaultParams.yo - defaultParams.yo) / ((defaultParams.ny : ℚ) - 2)
        / defaultParams.dy : ℚ) = 0 := by norm_num [defaultParams]
    rw [ha]
    push_cast
    norm_num [defaultParams]
  have h2 : tauFun defaultParams (ynorth defaultParams - (defaultParams.yo - defaultParams.yo))
      = -(1 / 10) := by
    unfold tauFun
    rw [hy]
    have ha : (((75 : ℚ) - (defaultParams.yo - defaultParams.yo) - defaultParams.yo)
        / ((defaultParams.ny : ℚ) - 2) / defaultParams.dy : ℚ) = 1 := by
      norm_num [defaultParams]
    rw [ha]
    push_cast
    rw [mul_one, Real.cos_two_pi]
    norm_num [defaultParams]
  have h3 : tauFun defaultParams ((defaultParams.yo + ynorth defaultParams) / 2) = 1 / 10 := by
    unfold tauFun
    rw [hy]
    have ha : ((((defaultParams.yo + 75) / 2) - defaultParams.yo)
        / ((defaultParams.ny : ℚ) - 2) / defaultParams.dy : ℚ) = 1 / 2 := by
      norm_num [defaultParams]
    rw [ha]
    push_cast
    have hb : (2 : ℝ) * Real.pi * (1 / 2) = Real.pi := by ring
    rw [hb, Real.cos_pi]
    norm_num [defaultParams]
  refine ⟨h1, h2, ?_, h3, ?_⟩
  · rw [h1, h2]
    norm_num
  · rw [h3, abs_of_pos (by norm_num : (0 : ℝ) < 1 / 10)]
    norm_num

/-- C4 amended: when (ny-2)*dy ≠ 0 the wind-stress profile is symmetric (not
anti-symmetric) about the meridional midpoint, tau(ynorth - (y - yo)) =
tau(y) for every y, and the value at the midpoint is +tauMax (not 0). -/
theorem c4_tau_symmetric (p : GenParams) (hL : ((p.ny : ℚ) - 2) * p.dy ≠ 0) (y : ℚ) :
    tauFun p (ynorth p - (y - p.yo)) = tauFun p y ∧
    tauFun p ((p.yo + ynorth p) / 2) = (p.tauMax : ℝ) := by
  have ha : ((p.ny : ℚ) - 2) ≠ 0 := left_ne_zero_of_mul hL
  have hd : p.dy ≠ 0 := right_ne_zero_of_mul hL
  have key : ∀ A : ℝ, Real.cos (2 * Real.pi * (1 - A)) = Real.cos (2 * Real.pi * A) := by
    intro A
    have h : (2 : ℝ) * Real.pi * (1 - A) = 2 * Real.pi - 2 * Real.pi * A := by ring
    rw [h, Real.cos_two_pi_sub]
  constructor
  · unfold tauFun ynorth
    have h1 : ((p.yo + ((p.ny : ℚ) - 2) * p.dy - (y - p.yo) - p.yo) / ((p.ny : ℚ) - 2)
          / p.dy : ℚ)
        = 1 - (y - p.yo) / ((p.ny : ℚ) - 2) / p.dy := by
      field_simp
      ring
    rw [h1]
    push_cast
    rw [key]
  · unfold tauFun ynorth
    have h1 : (((p.yo + (p.yo + ((p.ny : ℚ) - 2) * p.dy)) / 2 - p.yo) / ((p.ny : ℚ) - 2)
          / p.dy : ℚ) = 1 / 2 := by
      field_simp
      ring
    rw [h1]
    push_cast
    have h2 : (2 : ℝ) * Real.pi * ((1 : ℝ) / 2) = Real.pi := by ring
    rw [h2, Real.cos_pi]
    ring

/-- Witness for C4 amended at the default parameters and y = 20. -/
theorem c4_tau_symmetric_witness :
    tauFun defaultParams (ynorth defaultParams - (20 - defaultParams.yo))
      = tauFun defaultParams 20 ∧
    tauFun defaultParams ((defaultParams.yo + ynorth defaultParams) / 2)
      = (defaultParams.tauMax : ℝ) :=
  c4_tau_symmetric defaultParams (by norm_num [defaultParams]) 20

end MitgcmGyre

namespace MitgcmGyre

/-- C6: line i of the patched config file is the patch of line i of the old
file; a line whose stripped content starts with endTime, deltaT or viscAh
(tested in the source's elif order, which is decisive only between mutually
exclusive conditions) is replaced wholesale by the line " key=<value>.,\n"
for the corresponding parsed integer value, and every other line passes
through byte-identical. -/
theorem c6_patch_lines (e d v : Int) (lines : List (List Char)) (i : ℕ) (line : List Char)
    (h : lines[i]? = some line) :
    (patchFile e d v lines)[i]? = some (patchLine e d v line) ∧
    (pyStartswith "endTime".data (pyStrip line) = true →
      patchLine e d v line = " endTime=".data ++ intChars e ++ ".,\n".data) ∧
    (pyStartswith "endTime".data (pyStrip line) = false →
      pyStartswith "deltaT".data (pyStrip line) = true →
      patchLine e d v line = " deltaT=".data ++ intChars d ++ ".,\n".data) ∧
    (pyStartswith "endTime".data (pyStrip line) = false →
      pyStartswith "deltaT".data (pyStrip line) = false →
      pyStartswith "viscAh".data (pyStrip line) = true →
      patchLine e d v line = " viscAh=".data ++ intChars v ++ ".,\n".data) ∧
    (pyStartswith "endTime".data (pyStrip line) = false →
      pyStartswith "deltaT".data (pyStrip line) = false →
      pyStartswith "viscAh".data (pyStrip line) = false →
      patchLine e d v line = line) := by
  refine ⟨?_, ?_, ?_, ?_, ?_⟩
  · rw [patchFile, List.getElem?_map, h]
    rfl
  · intro h1
    rw [patchLine, if_pos h1]
  · intro h1 h2
    rw [patchLine, if_neg (by simp [h1]), if_pos h2]
  · intro h1 h2 h3
    rw [patchLine, if_neg (by simp [h1]), if_neg (by simp [h2]), if_pos h3]
  · intro h1 h2 h3
    rw [patchLine, if_neg (by simp [h1]), if_neg (by simp [h2]), if_neg (by simp [h3])]

/-- Witness for C6, the spec's own example: the file line " endTime=12000.,\n"
patched with endTime = 24000 becomes exactly " endTime=24000.,\n". -/
theorem c6_patch_lines_witness :
    ([" endTime=12000.,\n".data] : List (List Char))[0]? = some " endTime=12000.,\n".data ∧
    (patchFile 24000 1200 5000 [" endTime=12000.,\n".data])[0]?
      = some (patchLine 24000 1200 5000 " endTime=12000.,\n".data) ∧
    patchLine 24000 1200 5000 " endTime=12000.,\n".data = " endTime=24000.,\n".data :=
  ⟨rfl, (c6_patch_lines 24000 1200 5000 _ 0 _ rfl).1,
   by rw [(c6_patch_lines 24000 1200 5000 [" endTime=12000.,\n".data] 0
        " endTime=12000.,\n".data rfl).2.1 (by decide)]; decide⟩

/-- C7: a nonzero exit code of the simulation subprocess fails the request
with an execution error carrying that exit code, and the classification/merge
work after the subprocess call is not performed (the result is the bare
error); a zero exit code never raises this error — execution proceeds to the
classification and the two merge calls. -/
theorem c7_exit_code (c : Int) (rp : List Char) (files : List (List Char)) :
    (c ≠ 0 → postRun c rp files = Except.error c) ∧
    (c = 0 → postRun c rp files = Except.ok (classifyLoop rp files)) := by
  constructor
  · intro h
    rw [postRun, if_pos h]
  · intro h
    rw [postRun, if_neg (by simp [h])]

/-- Witness for C7 at exit codes 3 and 0. -/
theorem c7_exit_code_witness :
    postRun 3 "/res".data [] = Except.error 3 ∧
    postRun 0 "/res".data [] = Except.ok (classifyLoop "/res".data []) :=
  ⟨(c7_exit_code 3 "/res".data []).1 (by decide), (c7_exit_code 0 "/res".data []).2 rfl⟩

end MitgcmGyre

namespace MitgcmGyre

/-- C8: each generated file contains the ny*nx grid values in row-major order
(row index = y, column index = x) at 4 bytes per value — ny*nx*4 bytes in
total, with no header — and reading the flat file back with shape (ny, nx)
returns exactly the in-memory value at every position (big-endian float32
words round-trip bit-exactly). -/
theorem c8_serialization {α : Type} (ny nx : ℕ) (g : Fin ny → Fin nx → α)
    (i : Fin ny) (j : Fin nx) :
    fileSizeBytes ny nx g = ny * nx * 4 ∧
    readBack nx (rowMajor ny nx g) i.val j.val = some (g i j) := by
  constructor
  · rw [fileSizeBytes, rowMajor_length]
    rfl
  · rw [readBack, rowMajor,
      flatten_getElem_uniform nx _ i.val j.val ?_ j.isLt]
    · rw [List.getElem?_map]
      have h1 : (List.finRange ny)[i.val]? = some i := by
        rw [List.getElem?_eq_getElem (by simp)]
        simp [List.getElem_finRange]
      rw [h1]
      simp only [Option.map_some', Option.some_bind]
      rw [List.getElem?_map]
      have h2 : (List.finRange nx)[j.val]? = some j := by
        rw [List.getElem?_eq_getElem (by simp)]
        simp [List.getElem_finRange]
      rw [h2]
      rfl
    · intro r hr
      simp only [List.mem_map] at hr
      obtain ⟨a, _, rfl⟩ := hr
      simp [List.length_finRange]

end MitgcmGyre

namespace MitgcmGyre

/-- The claim's condition for a filename to be passed to the grid merge:
ends with .nc, is not state.nc, is not grid.nc, and starts with "grid".
Proven below to characterize exactly the loop's grid_files list. -/
def isGridFile (fn : List Char) : Prop :=
  pyEndswith ".nc".data fn = true ∧ fn ≠ "state.nc".data ∧ fn ≠ "grid.nc".data ∧
    pyStartswith "grid".data fn = true

/-- The claim's condition for a filename to be passed to the state merge:
ends with .nc, is not state.nc, is not grid.nc, does not start with "grid",
and starts with "state".  Proven below to characterize exactly the loop's
state_files list. -/
def isStateFile (fn : List Char) : Prop :=
  pyEndswith ".nc".data fn = true ∧ fn ≠ "state.nc".data ∧ fn ≠ "grid.nc".data ∧
    pyStartswith "grid".data fn = false ∧ pyStartswith "state".data fn = true

instance (fn : List Char) : Decidable (isGridFile fn) := by
  unfold isGridFile
  infer_instance

instance (fn : List Char) : Decidable (isStateFile fn) := by
  unfold isStateFile
  infer_instance

/-- Membership in the loop's grid_files list, characterized. -/
theorem mem_classify_grid (rp : List Char) (files : List (List Char)) (x : List Char) :
    x ∈ (classifyLoop rp files).1 ↔ ∃ fn, fn ∈ files ∧ x = pathJoin rp fn ∧ isGridFile fn := by
  induction files with
  | nil => simp [classifyLoop]
  | cons fn rest ih =>
    simp only [classifyLoop]
    split_ifs with h1 h2 h3 h4 h5 <;>
      simp_all [isGridFile, List.mem_cons]

/-- Membership in the loop's state_files list, characterized. -/
theorem mem_classify_state (rp : List Char) (files : List (List Char)) (x : List Char) :
    x ∈ (classifyLoop rp files).2 ↔ ∃ fn, fn ∈ files ∧ x = pathJoin rp fn ∧ isStateFile fn := by
  induction files with
  | nil => simp [classifyLoop]
  | cons fn rest ih =>
    simp only [classifyLoop]
    split_ifs with h1 h2 h3 h4 h5 <;>
      simp_all [isStateFile, List.mem_cons]

/-- Joining a fixed directory path with '/' is injective in the filename. -/
theorem pathJoin_inj (rp : List Char) {a b : List Char} (h : pathJoin rp a = pathJoin rp b) :
    a = b := by
  unfold pathJoin at h
  exact List.append_cancel_left h

/-- C9: a listed filename is passed to the grid merge iff it ends with .nc,
differs from grid.nc and state.nc, and starts with "grid"; it is passed to
the state merge iff it ends with .nc, differs from grid.nc and state.nc,
does not start with "grid", and starts with "state"; and no path is in both
merge lists. -/
theorem c9_classification (rp : List Char) (files : List (List Char)) (fn : List Char)
    (hmem : fn ∈ files) :
    (pathJoin rp fn ∈ (classifyLoop rp files).1 ↔ isGridFile fn) ∧
    (pathJoin rp fn ∈ (classifyLoop rp files).2 ↔ isStateFile fn) ∧
    ∀ x, ¬ (x ∈ (classifyLoop rp files).1 ∧ x ∈ (classifyLoop rp files).2) := by
  refine ⟨?_, ?_, ?_⟩
  · rw [mem_classify_grid]
    constructor
    · rintro ⟨fn', _, heq, hg⟩
      rwa [pathJoin_inj rp heq]
    · intro hg
      exact ⟨fn, hmem, rfl, hg⟩
  · rw [mem_classify_state]
    constructor
    · rintro ⟨fn', _, heq, hs⟩
      rwa [pathJoin_inj rp heq]
    · intro hs
      exact ⟨fn, hmem, rfl, hs⟩
  · rintro x ⟨hx1, hx2⟩
    rw [mem_classify_grid] at hx1
    rw [mem_classify_state] at hx2
    obtain ⟨a, _, rfl, hga⟩ := hx1
    obtain ⟨b, _, heq, hsb⟩ := hx2
    rw [pathJoin_inj rp heq] at hga
    have h1 := hga.2.2.2
    rw [hsb.2.2.2.1] at h1
    exact Bool.false_ne_true h1

/-- Witness for C9 on a concrete directory listing: grid.t001.nc goes to the
grid list, state.t001.nc goes to the state list, and grid.nc does not go to
the grid list. -/
theorem c9_classification_witness :
    pathJoin "/res".data "grid.t001.nc".data
      ∈ (classifyLoop "/res".data
          ["grid.t001.nc".data, "state.t001.nc".data, "grid.nc".data, "other.txt".data]).1 ∧
    pathJoin "/res".data "state.t001.nc".data
      ∈ (classifyLoop "/res".data
          ["grid.t001.nc".data, "state.t001.nc".data, "grid.nc".data, "other.txt".data]).2 ∧
    ¬ pathJoin "/res".data "grid.nc".data
      ∈ (classifyLoop "/res".data
          ["grid.t001.nc".data, "state.t001.nc".data, "grid.nc".data, "other.txt".data]).1 :=
  ⟨(c9_classification "/res".data _ "grid.t001.nc".data (by decide)).1.mpr (by decide),
   (c9_classification "/res".data _ "state.t001.nc".data (by decide)).2.1.mpr (by decide),
   fun h =>
     (by decide : ¬ isGridFile "grid.nc".data)
       ((c9_classification "/res".data _ "grid.nc".data (by decide)).1.mp h)⟩

/-- C10: the execute call passes only tauMax, Tmin, Tmax from the request to
gendata; the grid parameters keep their defaults, so whatever the request
values, each of the three generated files is a 62 × 62 grid of 15376 bytes. -/
theorem c10_fixed_shape (t tn tx : ℚ) :
    (executeGendataParams t tn tx).nx = 62 ∧
    (executeGendataParams t tn tx).ny = 62 ∧
    (executeGendataParams t tn tx).Ho = 1800 ∧
    (executeGendataParams t tn tx).xo = 0 ∧
    (executeGendataParams t tn tx).yo = 15 ∧
    (executeGendataParams t tn tx).dx = 1 ∧
    (executeGendataParams t tn tx).dy = 1 ∧
    fileSizeBytes 62 62 (bathy (executeGendataParams t tn tx)) = 15376 ∧
    fileSizeBytes 62 62 (tau (executeGendataParams t tn tx)) = 15376 ∧
    fileSizeBytes 62 62 (Trest (executeGendataParams t tn tx)) = 15376 := by
  refine ⟨rfl, rfl, rfl, rfl, rfl, rfl, rfl, ?_, ?_, ?_⟩ <;>
    rw [fileSizeBytes, rowMajor_length] <;> rfl

end MitgcmGyre
